import Mathlib

/-!
# Verification of the car-tracker enrichment-and-persistence pipeline

Shallow embedding, in Lean 4, of the parts of the `car-tracker` scraper
(`scraper/bat_util.py`, `scraper/bat_api_scraper.py`, `scraper/bat_scraper.py`,
`scraper/bat_backfill_manual.py`) that carry the pipeline's correctness claims:
the Gemini rate limiter, the classifier client and its cache, the defensive
transmission-response parser, the detail-page retry loop, the batch
coordinator, the SQL upsert merge policy, the make/model splitter, and the
mileage-selection logic.

Python `None` is modelled by `Option.none`; Python exceptions by explicit
outcome types; external effects (HTTP, the Gemini service, `json.loads`,
`random.uniform`) by oracle parameters; wall-clock time by rationals.
-/

set_option maxHeartbeats 1000000

namespace CarTracker

/-! ## Python-value helpers -/

/-- A Python object as produced by `json.loads`: a string, a dict, a list,
`None` (from JSON `null`), or any other value (numbers, booleans). -/
inductive PyJson where
  | jstr (s : String)
  | jdict (fields : List (String × PyJson))
  | jlist (items : List PyJson)
  | jnull
  | jother

/-- Python `dict.get(k)`: the value stored under `k`, or `None` when the key is
absent.  (JSON objects have unique keys, so first-match lookup is exact.) -/
def pyGet (fields : List (String × PyJson)) (k : String) : PyJson :=
  match fields.find? (fun p => p.1 = k) with
  | some p => p.2
  | none => PyJson.jnull

/-- The whitespace characters stripped by Python's `str.strip()`. -/
def pyWhitespace (c : Char) : Bool :=
  c = ' ' || c = '\t' || c = '\n' || c = '\r' || c = Char.ofNat 11 || c = Char.ofNat 12

/-- Strip characters satisfying `p` from both ends of a character list. -/
def stripEnds (p : Char → Bool) (cs : List Char) : List Char :=
  ((cs.dropWhile p).reverse.dropWhile p).reverse

/-- Python `str.strip()` (no arguments): strip whitespace from both ends. -/
def pyStrip (s : String) : String := ⟨stripEnds pyWhitespace s.data⟩

/-- Python `str.strip(chars)` for a one-character set. -/
def pyStripChar (c : Char) (s : String) : String := ⟨stripEnds (fun d => d = c) s.data⟩

/-- Python `str.lower()` (the inputs of interest are ASCII). -/
def pyLower (s : String) : String := ⟨s.data.map Char.toLower⟩

/-! ## C10: mileage selection in `parse_json_listing`
(`bat_api_scraper.py` lines 60-64) -/

/-- Python `extract_mileage(title) or extract_mileage(excerpt)`
(`bat_api_scraper.py` line 62).  Python truthiness makes both `None` and `0`
falsy, so a `some 0` on the left falls through to the right operand. -/
def pyOrMileage (a b : Option Nat) : Option Nat :=
  match a with
  | some n => if n = 0 then b else some n
  | none => b

/-- Mileage selection of `parse_json_listing` (`bat_api_scraper.py` lines
60-64): `mileage = extract_mileage(title) or extract_mileage(excerpt)`, then
`if mileage is None and url: mileage = await extract_mileage_from_detail_page(...)`.
`titleM`/`excerptM` are the two extraction results, `urlTruthy` the truthiness
of `url`, and `detailM` the detail-page result used when that branch runs. -/
def selectMileage (titleM excerptM : Option Nat) (urlTruthy : Bool)
    (detailM : Option Nat) : Option Nat :=
  let m := pyOrMileage titleM excerptM
  if m.isNone && urlTruthy then detailM else m

/-! ## C7: startup behaviour under a missing `GEMINI_API_KEY` -/

/-- What a scraper entry point does at import/startup time. -/
inductive StartupResult where
  | fatalExit (code : Nat)
  | continueRun (geminiConfigured : Bool)
deriving DecidableEq

/-- Startup of `bat_util.py` (lines 24-28): `GEMINI_API_KEY = os.getenv("GEMINI_API_KEY")`;
if truthy, `genai.configure(...)`; otherwise print a warning
("AI make/model fallback is disabled") and keep running.  An empty-string value
is falsy in Python, hence also the warning path. -/
def batUtilStartup (geminiKey : Option String) : StartupResult :=
  match geminiKey with
  | some s => if s = "" then .continueRun false else .continueRun true
  | none => .continueRun false

/-- Startup of `bat_scraper.py` (lines 15-19): `genai.configure(api_key=os.environ["GEMINI_API_KEY"])`
inside `try`, and on `KeyError` print a FATAL message and `exit(1)`.
A present-but-empty value raises no `KeyError`, so the run continues. -/
def batScraperStartup (geminiKey : Option String) : StartupResult :=
  match geminiKey with
  | some _ => .continueRun true
  | none => .fatalExit 1

/-! ## C2: the upsert merge policy of `save_to_db`
(`bat_util.py` lines 655-699) -/

/-- One row of the `auction` table / one record dict handed to `save_to_db`.
Every column the statement touches is nullable at the SQL level, so each field
is an `Option`; dates are abstracted to integers. -/
structure AuctionRow where
  source : Option String
  source_listing_id : Option String
  url : Option String
  title : Option String
  year : Option Int
  make : Option String
  model : Option String
  original_owner : Option Bool
  mileage : Option Int
  sold_price : Option Int
  sold_date : Option Int
  status : Option String
  excerpt : Option String
  manual : Option Bool
deriving DecidableEq

/-- SQL `COALESCE(a, b)`: `a` when non-null, else `b`. -/
def sqlCoalesce {α : Type} (a b : Option α) : Option α :=
  match a with
  | some x => some x
  | none => b

/-- Whether an incoming record conflicts with a stored row on the unique
natural key `(source, source_listing_id)`.  As in SQL, a NULL key component
never conflicts. -/
def keyConflict (incoming stored : AuctionRow) : Bool :=
  match incoming.source, stored.source,
        incoming.source_listing_id, stored.source_listing_id with
  | some s1, some s2, some i1, some i2 => s1 = s2 && i1 = i2
  | _, _, _, _ => false

/-- The `DO UPDATE SET` clause of `save_to_db` (`bat_util.py` lines 669-681):
`url,title,year,make,model,original_owner,excerpt` are overwritten by the
incoming (`EXCLUDED`) values; `mileage,sold_price,sold_date,status,manual` are
`COALESCE(EXCLUDED.x, auction.x)`. -/
def mergeRow (incoming stored : AuctionRow) : AuctionRow :=
  { stored with
    url := incoming.url
    title := incoming.title
    year := incoming.year
    make := incoming.make
    model := incoming.model
    original_owner := incoming.original_owner
    mileage := sqlCoalesce incoming.mileage stored.mileage
    sold_price := sqlCoalesce incoming.sold_price stored.sold_price
    sold_date := sqlCoalesce incoming.sold_date stored.sold_date
    status := sqlCoalesce incoming.status stored.status
    excerpt := incoming.excerpt
    manual := sqlCoalesce incoming.manual stored.manual }

/-- One `INSERT ... ON CONFLICT (source, source_listing_id) DO UPDATE`
execution of `save_to_db` against a table state: update the conflicting row
when one exists, otherwise append the new row. -/
def upsertRow (table : List AuctionRow) (r : AuctionRow) : List AuctionRow :=
  if table.any (fun row => keyConflict r row)
  then table.map (fun row => if keyConflict r row then mergeRow r row else row)
  else table ++ [r]

/-- Model of `save_to_db(records)` (`bat_util.py` lines 655-699): upsert each record in
order against the table. -/
def save_to_db (table : List AuctionRow) (records : List AuctionRow) : List AuctionRow :=
  records.foldl upsertRow table

/-- The stored row an incoming record's natural key resolves to. -/
def findByKey (table : List AuctionRow) (r : AuctionRow) : Option AuctionRow :=
  table.find? (fun row => keyConflict r row)

/-! ## C6: the defensive transmission-response parser
(`_parse_transmission_from_model_response`, `bat_util.py` lines 396-450) -/

/-- The backtick character stripped by `text.strip().strip(...)` on line 404. -/
def backquote : Char := Char.ofNat 96

/-- An opening brace, written via its code point. -/
def lbrace : Char := Char.ofNat 123

/-- A closing brace, written via its code point. -/
def rbrace : Char := Char.ofNat 125

/-- ASCII word characters, as matched by the regex class `\w` / asserted by
`\b` boundaries. -/
def wordChar (c : Char) : Bool := c.isAlpha || c.isDigit || c = '_'

/-- Whether `re.search(r"\b<pat>\b", s, re.IGNORECASE)` matches, for a fixed
lowercase alphabetic pattern `pat`: some occurrence of `pat` (case-folded)
with no word character on either side. -/
def wordSearch (pat : List Char) (cs : List Char) : Bool :=
  (List.range (cs.length + 1)).any (fun i =>
    decide (((cs.drop i).take pat.length).map Char.toLower = pat)
    && (decide (i = 0) || !wordChar (cs.getD (i - 1) ' '))
    && (decide (cs.length ≤ i + pat.length) || !wordChar (cs.getD (i + pat.length) ' ')))

/-- Lines 412-414 / 416-418: `v = val.strip().lower()`, then return `v` when it
is one of the two labels. -/
def normLabel (val : String) : Option String :=
  let v := pyLower (pyStrip val)
  if v = "automatic" || v = "manual" then some v else none

/-- Python `s.find(c)`: index of the first occurrence (`None` for -1). -/
def pyFind (c : Char) (cs : List Char) : Option Nat := cs.findIdx? (fun d => d = c)

/-- Python `s.rfind(c)`: index of the last occurrence (`None` for -1). -/
def pyRFind (c : Char) (cs : List Char) : Option Nat :=
  match cs.reverse.findIdx? (fun d => d = c) with
  | some j => some (cs.length - 1 - j)
  | none => none

/-- Stage (a), lines 407-420: strict `json.loads` of the whole stripped text,
accepting a dict with a recognized `"transmission"` field or a bare JSON
string label.  `jsonLoads` models `json.loads` (`none` = raises). -/
def stage1 (jsonLoads : String → Option PyJson) (s : String) : Option String :=
  match jsonLoads s with
  | some (.jdict fs) =>
    match pyGet fs "transmission" with
    | .jstr val => normLabel val
    | _ => none
  | some (.jstr v) => normLabel v
  | _ => none

/-- Stage (b), lines 422-436: slice from the first `\x7b` to the last `\x7d`
and retry the JSON parse, accepting only a dict. -/
def stage2 (jsonLoads : String → Option PyJson) (s : String) : Option String :=
  let cs := s.data
  match pyFind lbrace cs, pyRFind rbrace cs with
  | some start, some stop =>
    if start < stop then
      match jsonLoads ⟨(cs.drop start).take (stop + 1 - start)⟩ with
      | some (.jdict fs) =>
        match pyGet fs "transmission" with
        | .jstr val => normLabel val
        | _ => none
      | _ => none
    else none
  | _, _ => none

/-- Stage (c), lines 438-442: `re.fullmatch(r'"?automatic"?', s, re.IGNORECASE)`
and the same for `manual`: the whole text is the bare label, optionally
quoted. -/
def stage3 (s : String) : Option String :=
  let t := pyLower s
  if t = "automatic" || t = "\"automatic" || t = "automatic\"" || t = "\"automatic\""
  then some "automatic"
  else if t = "manual" || t = "\"manual" || t = "manual\"" || t = "\"manual\""
  then some "manual"
  else none

/-- Stage (d), lines 444-448: keyword sniffing, answering only when exactly one
of the two keywords occurs (`has_auto ^ has_manual`). -/
def stage4 (s : String) : Option String :=
  let hasAuto := wordSearch "automatic".data s.data
  let hasManual := wordSearch "manual".data s.data
  if hasAuto != hasManual then
    if hasAuto then some "automatic" else some "manual"
  else none

/-- Continuation of `_parse_transmission_from_model_response` falling into block 4 (lines
444-450) after blocks 1-3 produced no `return`: keyword sniffing. -/
def parseFall3 (s : String) : Option String :=
  let hasAuto := wordSearch "automatic".data s.data
  let hasManual := wordSearch "manual".data s.data
  if hasAuto != hasManual then
    if hasAuto then some "automatic" else some "manual"
  else none

/-- Continuation of `_parse_transmission_from_model_response` falling into block 3 (lines
438-442) after blocks 1-2 produced no `return`: bare word responses, then on
through block 4. -/
def parseFall2 (s : String) : Option String :=
  let t := pyLower s
  if t = "automatic" || t = "\"automatic" || t = "automatic\"" || t = "\"automatic\""
  then some "automatic"
  else if t = "manual" || t = "\"manual" || t = "manual\"" || t = "\"manual\""
  then some "manual"
  else parseFall3 s

/-- Continuation of `_parse_transmission_from_model_response` falling into block 2 (lines
422-436) after block 1 produced no `return`: first `\x7b` to last `\x7d`
slice, then on through blocks 3-4. -/
def parseFall1 (jsonLoads : String → Option PyJson) (s : String) : Option String :=
  let cs := s.data
  match pyFind lbrace cs, pyRFind rbrace cs with
  | some start, some stop =>
    if start < stop then
      match jsonLoads ⟨(cs.drop start).take (stop + 1 - start)⟩ with
      | some (.jdict fs) =>
        match pyGet fs "transmission" with
        | .jstr val =>
          let v := pyLower (pyStrip val)
          if v = "automatic" || v = "manual" then some v else parseFall2 s
        | _ => parseFall2 s
      | _ => parseFall2 s
    else parseFall2 s
  | _, _ => parseFall2 s

/-- Direct translation of `_parse_transmission_from_model_response`
(`bat_util.py` lines 396-450), keeping the early-return control flow: each
code block that falls off its end without returning continues in the next
`parseFallN`.  `jsonLoads` models `json.loads` (`none` = raises). -/
def _parse_transmission_from_model_response (jsonLoads : String → Option PyJson)
    (text : String) : Option String :=
  if text = "" then none
  else
    let s := pyStripChar backquote (pyStrip text)
    match jsonLoads s with
    | some (.jdict fs) =>
      match pyGet fs "transmission" with
      | .jstr val =>
        let v := pyLower (pyStrip val)
        if v = "automatic" || v = "manual" then some v else parseFall1 jsonLoads s
      | _ => parseFall1 jsonLoads s
    | some (.jstr v0) =>
      let v := pyLower (pyStrip v0)
      if v = "automatic" || v = "manual" then some v else parseFall1 jsonLoads s
    | _ => parseFall1 jsonLoads s

/-! ## C3: the classifier client and its cache
(`ai_extract_make_model`, `bat_util.py` lines 347-392;
`ai_identify_transmission`, lines 453-499) -/

/-- The run-scoped module state of `bat_util.py` touched by the classifier
client: the `_ai_make_model_cache` dict, the `_ai_fallback_count` counter, and
two observability counters for the claims: how often `_throttle_gemini_call`
was awaited and how often the external Gemini call was issued. -/
structure AIState where
  cache : List (String × (PyJson × PyJson))
  fallbackCount : Nat
  throttleCalls : Nat
  extCalls : Nat

/-- Python dict lookup `raw_title in cache` / `cache[raw_title]`. -/
def cacheLookup (cache : List (String × (PyJson × PyJson))) (k : String) :
    Option (PyJson × PyJson) :=
  match cache.find? (fun p => p.1 = k) with
  | some p => some p.2
  | none => none

/-- Model of `ai_extract_make_model` (`bat_util.py` lines 347-392).  `keyConfigured`
is the truthiness of `GEMINI_API_KEY`; `oracle raw_title` is the
`json.loads`-parsed response of `model.generate_content_async` (`none` = the
call or the parse raised).  Lines 379-385 select `data`: the first element of
a non-empty list response (raising `AttributeError`, hence the `except` path,
when that element is not a dict), the dict itself, or `\x7b\x7d` otherwise;
the result tuple `(data.get("make"), data.get("model"))` is cached and
returned, with Python `None` modelled as `.jnull`. -/
def ai_extract_make_model (keyConfigured : Bool) (oracle : String → Option PyJson)
    (raw_title : String) (st : AIState) : (PyJson × PyJson) × AIState :=
  let st := { st with fallbackCount := st.fallbackCount + 1 }
  if !keyConfigured then
    ((.jnull, .jnull), { st with cache := (raw_title, (.jnull, .jnull)) :: st.cache })
  else
    match cacheLookup st.cache raw_title with
    | some v => (v, st)
    | none =>
      let st := { st with throttleCalls := st.throttleCalls + 1, extCalls := st.extCalls + 1 }
      let exceptPath : (PyJson × PyJson) × AIState :=
        ((.jnull, .jnull), { st with cache := (raw_title, (.jnull, .jnull)) :: st.cache })
      let okPath (fs : List (String × PyJson)) : (PyJson × PyJson) × AIState :=
        let result := (pyGet fs "make", pyGet fs "model")
        (result, { st with cache := (raw_title, result) :: st.cache })
      match oracle raw_title with
      | none => exceptPath
      | some parsed =>
        match parsed with
        | .jlist (x :: _) =>
          match x with
          | .jdict fs => okPath fs
          | _ => exceptPath
        | .jdict fs => okPath fs
        | _ => okPath []

/-- The retry loop of `ai_identify_transmission` (`bat_util.py` lines
479-499), entered at `attempt`: each iteration awaits the throttle, issues the
external call (`oracle title excerpt attempt`; `none` = it raised), parses the
response text (`getattr(response, "text", None) or ""` collapses an absent
text to `""`), returns on a recognized label, and otherwise retries while
`attempt < 2`. -/
def identifyAttempts (jsonLoads : String → Option PyJson)
    (oracle : String → String → Nat → Option String) (title excerpt : String)
    (attempt : Nat) (st : AIState) : Option Bool × AIState :=
  let st1 := { st with throttleCalls := st.throttleCalls + 1, extCalls := st.extCalls + 1 }
  match oracle title excerpt attempt with
  | some text =>
    let label := _parse_transmission_from_model_response jsonLoads text
    if label = some "automatic" then (some true, st1)
    else if label = some "manual" then (some false, st1)
    else if attempt < 2 then identifyAttempts jsonLoads oracle title excerpt (attempt + 1) st1
    else (none, st1)
  | none =>
    if attempt < 2 then identifyAttempts jsonLoads oracle title excerpt (attempt + 1) st1
    else (none, st1)
termination_by 2 - attempt
decreasing_by all_goals omega

/-- Model of `ai_identify_transmission` (`bat_util.py` lines 453-499): `None`
immediately when Gemini is not configured, otherwise up to 3 attempts.  Note
there is no cache here. -/
def ai_identify_transmission (keyConfigured : Bool)
    (jsonLoads : String → Option PyJson)
    (oracle : String → String → Nat → Option String) (title excerpt : String)
    (st : AIState) : Option Bool × AIState :=
  if !keyConfigured then (none, st)
  else identifyAttempts jsonLoads oracle title excerpt 0 st

/-! ## C1: the Gemini rate limiter
(`_throttle_gemini_call`, `bat_util.py` lines 306-315) -/

/-- The interval `_gemini_interval = 60.0 / max(1, _GEMINI_RATE_LIMIT_RPM)`
(`bat_util.py` line 274). -/
def gemini_interval (rpm : Nat) : ℚ := 60 / max 1 (rpm : ℚ)

/-- Where one task stands inside the body of `_throttle_gemini_call`:
not yet entered, suspended in `asyncio.sleep` until `wakeAt`, or past the
`_gemini_last_call = time.monotonic()` update (its Gemini call has started). -/
inductive GPhase where
  | ready
  | sleeping (wakeAt : ℚ)
  | finished
deriving DecidableEq

/-- The shared state of a run: the monotonic clock, the module global
`_gemini_last_call`, the phase of each concurrent caller, and the admitted
call-start timestamps in admission order. -/
structure GSys where
  clock : ℚ
  last : ℚ
  tasks : List GPhase
  log : List ℚ
deriving DecidableEq

/-- Cooperative small-step semantics of `_throttle_gemini_call` under
asyncio.  A task's synchronous segments are atomic; the only suspension point
is `await asyncio.sleep(wait)` when `wait > 0`:
* `advance`: the monotonic clock moves forward;
* `admitNow`: a task runs the whole body without suspending because
  `wait = _gemini_interval - (now - _gemini_last_call) ≤ 0`; it sets
  `_gemini_last_call` and its call starts now;
* `beginSleep`: a task reads the clock and `_gemini_last_call`, computes
  `wait > 0`, and suspends until `now + wait`;
* `wakeAdmit`: a sleeping task whose deadline has passed resumes, re-reads
  the clock into `_gemini_last_call`, and its call starts now. -/
inductive GStep (iv : ℚ) : GSys → GSys → Prop where
  | advance (s t : GSys) (d : ℚ) (hd : 0 ≤ d)
      (ht : t = { s with clock := s.clock + d }) : GStep iv s t
  | admitNow (s t : GSys) (i : Nat)
      (hp : s.tasks[i]? = some .ready)
      (hw : iv - (s.clock - s.last) ≤ 0)
      (ht : t = { s with last := s.clock,
                         tasks := s.tasks.set i .finished,
                         log := s.log ++ [s.clock] }) : GStep iv s t
  | beginSleep (s t : GSys) (i : Nat)
      (hp : s.tasks[i]? = some .ready)
      (hw : 0 < iv - (s.clock - s.last))
      (ht : t = { s with
                  tasks := s.tasks.set i
                    (.sleeping (s.clock + (iv - (s.clock - s.last)))) }) : GStep iv s t
  | wakeAdmit (s t : GSys) (i : Nat) (u : ℚ)
      (hp : s.tasks[i]? = some (.sleeping u))
      (hu : u ≤ s.clock)
      (ht : t = { s with last := s.clock,
                         tasks := s.tasks.set i .finished,
                         log := s.log ++ [s.clock] }) : GStep iv s t

/-- Reachability under the cooperative semantics. -/
def GReach (iv : ℚ) : GSys → GSys → Prop := Relation.ReflTransGen (GStep iv)

/-- Consecutive admitted call-start timestamps are at least `iv` apart. -/
def SpacedBy (iv : ℚ) (log : List ℚ) : Prop :=
  List.Chain' (fun a b => a + iv ≤ b) log

/-- The call-start timestamp of one execution of `_throttle_gemini_call` by a
caller that runs the whole body without interleaving: arriving at `clock` with
`_gemini_last_call = last`, it sleeps exactly `wait` when `wait > 0` and its
call starts when it updates `_gemini_last_call`. -/
def throttleStart (iv clock last : ℚ) : ℚ :=
  let wait := iv - (clock - last)
  if 0 < wait then clock + wait else clock

/-- Serialized executions of `_throttle_gemini_call`: each caller arrives at
its clock value and runs the body to completion before the next enters.
Returns the admitted call-start timestamps. -/
def seqRun (iv : ℚ) (last : ℚ) : List ℚ → List ℚ
  | [] => []
  | a :: rest => throttleStart iv a last :: seqRun iv (throttleStart iv a last) rest

/-- A concrete two-caller run at `_gemini_interval = 1` (RPM 60): both callers
enter at clock 1/2, both compute `wait = 1/2 > 0`, both sleep. -/
def gInit : GSys := ⟨1/2, 0, [.ready, .ready], []⟩

/-- After caller 0 suspends. -/
def gMid1 : GSys := ⟨1/2, 0, [.sleeping 1, .ready], []⟩

/-- After caller 1 also suspends, having read the stale `_gemini_last_call`. -/
def gMid2 : GSys := ⟨1/2, 0, [.sleeping 1, .sleeping 1], []⟩

/-- The clock reaches both wake deadlines. -/
def gMid3 : GSys := ⟨1, 0, [.sleeping 1, .sleeping 1], []⟩

/-- Caller 0 wakes and is admitted at time 1. -/
def gMid4 : GSys := ⟨1, 1, [.finished, .sleeping 1], [1]⟩

/-- Caller 1 wakes and is admitted at time 1 as well: two call-starts 0 apart. -/
def gFinal : GSys := ⟨1, 1, [.finished, .finished], [1, 1]⟩

/-! ## C4 and C8: the detail fetcher's retry loop
(`extract_mileage_from_detail_page`, `bat_util.py` lines 563-611) -/

/-- Outcome of one `session.get` attempt: an HTTP status with a body, a
network timeout (`asyncio.TimeoutError`), a generic transport error
(`aiohttp.ClientError`), or a redirect loop (`TooManyRedirects`). -/
inductive FetchOutcome where
  | httpStatus (code : Nat) (body : String)
  | timeout
  | clientError
  | tooManyRedirects
deriving DecidableEq

/-- The transient-server statuses of line 577: `(429, 500, 502, 503, 504)`. -/
def transientStatus (code : Nat) : Bool :=
  code = 429 || code = 500 || code = 502 || code = 503 || code = 504

/-- The retry loop of `extract_mileage_from_detail_page` (`bat_util.py` lines
568-608), entered at `attempt` with `DETAIL_MAX_RETRIES = maxRetries` and
`DETAIL_BACKOFF_BASE = base`.  `oracle n` is the outcome of the `n`-th
attempt; `jitter n` the value `random.uniform(0, 0.5)` would draw there.
Returns `(html, attempts issued, delays actually slept)`.  Branches:
transient statuses sleep `min(base**attempt, 10.0) + jitter` (line 578);
403 sleeps `2.0 + attempt` (line 586); a timeout or a client error — which
includes every other `>= 400` status via `raise_for_status()` — sleeps
`min(base**attempt, 8.0)` (lines 603/608); on the last attempt each of these
returns `None` instead of sleeping; a redirect loop returns `None`
immediately; a `< 400` status stores the body and leaves the loop. -/
def fetchAttempts (base : ℚ) (jitter : Nat → ℚ) (oracle : Nat → FetchOutcome)
    (maxRetries : Nat) (attempt : Nat) : Option String × Nat × List ℚ :=
  if attempt < maxRetries then
    let retry (delay : ℚ) : Option String × Nat × List ℚ :=
      if attempt = maxRetries - 1 then (none, attempt + 1, [])
      else
        let r := fetchAttempts base jitter oracle maxRetries (attempt + 1)
        (r.1, r.2.1, delay :: r.2.2)
    match oracle attempt with
    | .httpStatus code body =>
      if transientStatus code then retry (min (base ^ attempt) 10 + jitter attempt)
      else if code = 403 then retry (2 + (attempt : ℚ))
      else if code < 400 then (some body, attempt + 1, [])
      else retry (min (base ^ attempt) 8)
    | .timeout => retry (min (base ^ attempt) 8)
    | .clientError => retry (min (base ^ attempt) 8)
    | .tooManyRedirects => (none, attempt + 1, [])
  else (none, attempt, [])
termination_by maxRetries - attempt
decreasing_by all_goals omega

/-- The fetch phase of `extract_mileage_from_detail_page` from the top
(`attempt = 0`), including the `if not html: return None` truthiness check of
line 610 (an empty body counts as no data). -/
def detailFetch (base : ℚ) (jitter : Nat → ℚ) (oracle : Nat → FetchOutcome)
    (maxRetries : Nat) : Option String × Nat × List ℚ :=
  let r := fetchAttempts base jitter oracle maxRetries 0
  (match r.1 with
   | some b => if b = "" then none else some b
   | none => none, r.2)

/-- The delay the loop would sleep after a non-final attempt `a` ending in
outcome `o`, or `none` when that outcome does not sleep (success or redirect
loop).  Derived classification used to state the backoff theorems. -/
def sleepDelay (base : ℚ) (jitter : Nat → ℚ) (o : FetchOutcome) (a : Nat) : Option ℚ :=
  match o with
  | .httpStatus code _ =>
    if transientStatus code then some (min (base ^ a) 10 + jitter a)
    else if code = 403 then some (2 + (a : ℚ))
    else if code < 400 then none
    else some (min (base ^ a) 8)
  | .timeout => some (min (base ^ a) 8)
  | .clientError => some (min (base ^ a) 8)
  | .tooManyRedirects => none

/-! ## C5: batch isolation in the coordinators
(`parse_listings`, `bat_api_scraper.py` lines 109-119;
`backfill_manual`, `bat_backfill_manual.py` lines 94-107) -/

/-- Model of `parse_listings` (`bat_api_scraper.py` lines 109-119):
`asyncio.gather(*tasks, return_exceptions=True)` hands back one outcome per
item; an exception outcome is printed and skipped, a `None`/falsy result is
dropped, and every other result is appended.  `f a` is item `a`'s task
outcome: `.error e` = the task raised `e`, `.ok none` = `parse_json_listing`
returned `None`, `.ok (some b)` = it returned record `b`.  Returns the kept
records (in item order) and the number of error log lines. -/
def parse_listings {α β ε : Type} (f : α → Except ε (Option β))
    (listings : List α) : List β × Nat :=
  (listings.map f).foldl
    (fun acc r =>
      match r with
      | .error _ => (acc.1, acc.2 + 1)
      | .ok none => acc
      | .ok (some b) => (acc.1 ++ [b], acc.2))
    ([], 0)

/-- Python `rows[i:i+n]` chunking (`for i in range(0, len(rows), n)`),
`bat_backfill_manual.py` lines 96-97.  `n = 0` cannot occur (the chunk size
is `max(100, ...)`). -/
def pyChunks {α : Type} (n : Nat) (l : List α) : List (List α) :=
  match l with
  | [] => []
  | x :: xs =>
    if _h : n = 0 then []
    else (x :: xs).take n :: pyChunks n ((x :: xs).drop n)
termination_by l.length
decreasing_by
  simp only [List.length_drop, List.length_cons]
  omega

/-- The chunked gather-and-count of `backfill_manual`
(`bat_backfill_manual.py` lines 94-107): chunk size
`CHUNK = max(100, concurrency * 2)`; within each chunk, gather with
`return_exceptions=True`; an exception outcome is printed
(`Backfill exception: ...`), any other outcome is added to `updated`.
`g row` is `process_row`'s outcome (`.ok 1` updated, `.ok 0` skipped,
`.error e` the task raised `e`).  Returns `(updated, exception log lines)`. -/
def backfill_manual {ρ ε : Type} (g : ρ → Except ε Nat) (rows : List ρ)
    (concurrency : Nat) : Nat × Nat :=
  let CHUNK := max 100 (concurrency * 2)
  (pyChunks CHUNK rows).foldl
    (fun acc batch =>
      batch.foldl
        (fun a r =>
          match g r with
          | .error _ => (a.1, a.2 + 1)
          | .ok n => (a.1 + n, a.2))
        acc)
    (0, 0)

/-! ## C9: the deterministic make/model splitter
(`split_make_model`, `bat_util.py` lines 318-344; `KNOWN_MAKES`, lines
49-170) -/

/-- Head match of a literal character pattern. -/
def startsWithList (pat cs : List Char) : Bool := decide (cs.take pat.length = pat)

/-- Case-insensitive head match of a literal pattern. -/
def startsWithCI (pat cs : List Char) : Bool :=
  decide ((cs.take pat.length).map Char.toLower = pat.map Char.toLower)

/-- The alternatives of the non-make marker regex of lines 324-329, in
pattern order. -/
def titleMarkers : List String :=
  ["One-Owner", "Original-Owner", "Modified", "Supercharged", "Turbocharged",
   "Custom", "JDM"]

/-- The substitution `re.sub(r"^(One-Owner|Original-Owner|Modified|Supercharged|Turbocharged|Custom|JDM)\s+", "", raw_title, flags=re.IGNORECASE)`
(lines 324-329): the first alternative that matches at the head and is
followed by at least one whitespace character is removed together with the
whole (greedy `\s+`) whitespace run; otherwise the title is unchanged. -/
def removeTitleMarkers (cs : List Char) : List Char :=
  match titleMarkers.find? (fun alt =>
      startsWithCI alt.data cs &&
      (match cs.drop alt.length with
       | c :: _ => pyWhitespace c
       | [] => false)) with
  | some alt => (cs.drop alt.length).dropWhile pyWhitespace
  | none => cs

/-- The regex character class `[\d.,kK-]`. -/
def mileClassChar (c : Char) : Bool :=
  c.isDigit || c = '.' || c = ',' || c = 'k' || c = 'K' || c = '-'

/-- Head match of `(?:19|20)\d{2}\s+`: a four-digit year starting `19` or
`20`, followed by at least one whitespace character; returns what follows the
greedy whitespace run. -/
def matchYearThenWs (cs : List Char) : Option (List Char) :=
  match cs with
  | c1 :: c2 :: c3 :: c4 :: rest =>
    if ((c1 = '1' && c2 = '9') || (c1 = '2' && c2 = '0')) && c3.isDigit && c4.isDigit then
      match rest with
      | c :: _ => if pyWhitespace c then some (rest.dropWhile pyWhitespace) else none
      | [] => none
    else none
  | _ => none

/-- The substitution `re.sub(r"^(?:[\d.,kK-]+-Mile\s+)?(?:19|20)\d{2}\s+", "", title)`
(line 333): strip an optional mileage qualifier and the year from the head.
Greedy backtracking of `[\d.,kK-]+`: the longest class run followed by a
literal `-Mile`, whitespace and a year wins; failing every run length, the
optional group is skipped and a bare year match is tried; failing that, the
title is unchanged. -/
def stripYearHead (cs : List Char) : List Char :=
  let maxRun := (cs.takeWhile mileClassChar).length
  let withQual : Option (List Char) :=
    ((List.range maxRun).map (fun k => maxRun - k)).findSome? (fun j =>
      let rest := cs.drop j
      if startsWithList "-Mile".data rest then
        match rest.drop 5 with
        | c :: cs2 =>
          if pyWhitespace c then matchYearThenWs ((c :: cs2).dropWhile pyWhitespace)
          else none
        | [] => none
      else none)
  match withQual with
  | some rest => rest
  | none =>
    match matchYearThenWs cs with
    | some rest => rest
    | none => cs

/-- The list `KNOWN_MAKES` (`bat_util.py` lines 49-167), in source order, duplicates
kept. -/
def KNOWN_MAKES : List String :=
  ["Gordon Murray Automotive", "Mercedes-Benz", "Harley-Davidson",
   "BMW Motorrad", "Land Rover", "Morgan Aeromax", "Morgan SuperSport",
   "Rolls-Royce", "Mercedes-AMG",
   "Bugatti", "Koenigsegg", "Pagani", "Rimac", "Hennessey", "GMA",
   "Acura", "Abarth", "Alfa Romeo", "Alpina", "Alpine", "Aston Martin",
   "Audi", "Bentley", "BMW", "BYD", "Cadillac", "Chevrolet", "Chrysler",
   "Citroën", "Dacia", "Daewoo", "Daihatsu", "Dodge", "Donkervoort", "DS",
   "Ferrari", "Fiat", "Fisker", "Ford", "Genesis", "Honda", "Hummer",
   "Hyundai", "Infiniti", "Iveco", "Jaguar", "Jeep", "Kia", "KTM", "Lada",
   "Lamborghini", "Lancia", "Landwind", "Lexus", "Lucid", "Lotus",
   "Maserati", "Maybach", "Mazda", "McLaren", "Mercedes", "Mini",
   "Mitsubishi", "Morgan", "Nissan", "Opel", "Peugeot", "Plymouth",
   "Polestar", "Pontiac", "Porsche", "Ram", "Renault", "Rivian",
   "Rolls-Royce", "Rover", "Saab", "Saturn", "Scion", "Seat", "Skoda",
   "Smart", "SsangYong", "Subaru", "Suzuki", "Tata", "Tesla", "Toyota",
   "Volkswagen", "Volvo", "International", "Mercury", "GMC",
   "Aprilia", "Benelli", "Bimota", "Ducati", "Hero MotoCorp", "Husqvarna",
   "Indian", "Kawasaki", "KTM", "Moto Guzzi", "MV Agusta", "Piaggio",
   "Royal Enfield", "Suzuki", "Triumph", "TVS", "Vespa", "Yamaha",
   "Zero Motorcycles", "BSA"]

/-- Stable insertion keeping a list sorted by descending length: the new
entry goes after every entry at least as long. -/
def insertByLen (x : String) : List String → List String
  | [] => [x]
  | y :: ys => if y.length < x.length then x :: y :: ys else y :: insertByLen x ys

/-- The sort `KNOWN_MAKES.sort(key=len, reverse=True)` (line 170): Python's sort is
stable, so equal lengths keep source order — realized here as a stable
insertion sort. -/
def sortedKnownMakes : List String :=
  KNOWN_MAKES.foldl (fun acc x => insertByLen x acc) []

/-- The dict `MAKE_NORMALIZATION` (lines 173-176). -/
def MAKE_NORMALIZATION : List (String × String) :=
  [("Mercedes-AMG", "Mercedes-Benz"), ("GMA", "Gordon Murray Automotive")]

/-- The lookup `MAKE_NORMALIZATION.get(make, make)` (line 339). -/
def normalizeMake (make : String) : String :=
  match MAKE_NORMALIZATION.find? (fun p => p.1 = make) with
  | some p => p.2
  | none => make

/-- Model of `split_make_model` (`bat_util.py` lines 318-344): remove non-make
markers, strip year and mileage, try each known make (longest first) as a
`startswith(make + " ")` head, normalize sub-brands; only when no known make
matches, fall back to the classifier.  `ai raw_title` is
`ai_extract_make_model`'s final outcome (Python `None` as `none`); the `Nat`
counts classifier invocations. -/
def split_make_model (ai : String → Option String × Option String)
    (raw_title : String) : (Option String × Option String) × Nat :=
  let title := removeTitleMarkers raw_title.data
  let stripped_title : List Char := stripEnds pyWhitespace (stripYearHead title)
  match sortedKnownMakes.find? (fun mk =>
      startsWithList (mk.data ++ [' ']) stripped_title) with
  | some mk =>
    ((some (normalizeMake mk),
      some ⟨stripEnds pyWhitespace (stripped_title.drop mk.length)⟩), 0)
  | none => (ai raw_title, 1)

/-! ## Theorems -/

/-- Looking up the key just cached returns the cached value. -/
theorem cacheLookup_cons (k : String) (v : PyJson × PyJson)
    (c : List (String × (PyJson × PyJson))) : cacheLookup ((k, v) :: c) k = some v := by
  simp [cacheLookup]

/-- The predicate `keyConflict` only reads the natural-key fields, which `mergeRow` leaves
untouched. -/
theorem keyConflict_mergeRow (r w : AuctionRow) :
    keyConflict r (mergeRow r w) = keyConflict r w := rfl

/-- The lookup `find?` commutes with the conflict-merge map of `upsertRow`. -/
theorem find_map_merge (r stored : AuctionRow) :
    ∀ l : List AuctionRow, l.find? (fun row => keyConflict r row) = some stored →
      (l.map (fun row => if keyConflict r row then mergeRow r row else row)).find?
          (fun row => keyConflict r row) = some (mergeRow r stored) := by
  intro l
  induction l with
  | nil => intro h; simp at h
  | cons a t ih =>
    intro h
    by_cases ha : keyConflict r a
    · rw [List.find?_cons_of_pos _ ha] at h
      injection h with h
      subst h
      simp only [List.map_cons, if_pos ha]
      exact List.find?_cons_of_pos _ (by rw [keyConflict_mergeRow]; exact ha)
    · rw [List.find?_cons_of_neg _ (by simp [ha])] at h
      simp only [List.map_cons, if_neg ha]
      rw [List.find?_cons_of_neg _ (by simp [ha])]
      exact ih h

/-- C2: upserting a record whose natural key resolves to a stored row leaves,
for each nullable enrichment field (mileage, sold_price, sold_date, status,
manual), the incoming value when it is non-null and the previously stored
value otherwise, while url, title, year, make, model, original_owner and
excerpt take the incoming values unconditionally. -/
theorem C2_upsert_coalesce (table : List AuctionRow) (r stored : AuctionRow)
    (h : findByKey table r = some stored) :
    findByKey (upsertRow table r) r = some (mergeRow r stored)
    ∧ (mergeRow r stored).mileage
        = (match r.mileage with | some v => some v | none => stored.mileage)
    ∧ (mergeRow r stored).sold_price
        = (match r.sold_price with | some v => some v | none => stored.sold_price)
    ∧ (mergeRow r stored).sold_date
        = (match r.sold_date with | some v => some v | none => stored.sold_date)
    ∧ (mergeRow r stored).status
        = (match r.status with | some v => some v | none => stored.status)
    ∧ (mergeRow r stored).manual
        = (match r.manual with | some v => some v | none => stored.manual)
    ∧ (mergeRow r stored).url = r.url
    ∧ (mergeRow r stored).title = r.title
    ∧ (mergeRow r stored).year = r.year
    ∧ (mergeRow r stored).make = r.make
    ∧ (mergeRow r stored).model = r.model
    ∧ (mergeRow r stored).original_owner = r.original_owner
    ∧ (mergeRow r stored).excerpt = r.excerpt := by
  refine ⟨?_, by simp only [mergeRow]; cases r.mileage <;> rfl,
    by simp only [mergeRow]; cases r.sold_price <;> rfl,
    by simp only [mergeRow]; cases r.sold_date <;> rfl,
    by simp only [mergeRow]; cases r.status <;> rfl,
    by simp only [mergeRow]; cases r.manual <;> rfl,
    rfl, rfl, rfl, rfl, rfl, rfl, rfl⟩
  have hmem := List.mem_of_find?_eq_some h
  have hp : keyConflict r stored := List.find?_some h
  have hany : table.any (fun row => keyConflict r row) = true :=
    List.any_eq_true.mpr ⟨stored, hmem, hp⟩
  unfold upsertRow findByKey
  rw [if_pos hany]
  exact find_map_merge r stored table h

/-- A stored row with a prior non-null mileage and null price/date/manual. -/
def exStored : AuctionRow :=
  ⟨some "bat", some "42", some "u0", some "t0", some 1999, some "Mazda",
   some "Miata", some false, some 10000, none, none, some "sold", some "e0", none⟩

/-- An incoming record with the same natural key, null mileage, non-null
price. -/
def exIncoming : AuctionRow :=
  ⟨some "bat", some "42", some "u1", some "t1", some 1999, some "Mazda",
   some "MX-5", some true, none, some 5000, none, none, some "e1", some true⟩

/-- Witness for C2 at a concrete one-row table: the incoming null mileage
keeps the stored 10000, the incoming price 5000 lands, and the descriptive
fields are overwritten. -/
theorem C2_upsert_coalesce_witness :
    findByKey [exStored] exIncoming = some exStored
    ∧ findByKey (upsertRow [exStored] exIncoming) exIncoming
        = some (mergeRow exIncoming exStored)
    ∧ mergeRow exIncoming exStored
        = ⟨some "bat", some "42", some "u1", some "t1", some 1999, some "Mazda",
           some "MX-5", some true, some 10000, some 5000, none, some "sold",
           some "e1", some true⟩ :=
  ⟨by decide, (C2_upsert_coalesce [exStored] exIncoming exStored (by decide)).1,
   by decide⟩

/-- C7 counterexample: with `GEMINI_API_KEY` unset the `bat_util.py`-based
pipeline is not aborted — startup takes the warning path and keeps running,
and a classifier call afterwards simply returns the unknown outcome without
an external invocation, instead of the run having been prevented. -/
theorem C7_counterexample :
    batUtilStartup none = .continueRun false
    ∧ (ai_extract_make_model false (fun _ => none) "t" ⟨[], 0, 0, 0⟩).1
        = (.jnull, .jnull)
    ∧ ((ai_extract_make_model false (fun _ => none) "t" ⟨[], 0, 0, 0⟩).2).extCalls = 0 :=
  ⟨rfl, rfl, rfl⟩

/-- C7 (amended): only the legacy `bat_scraper.py` entry point aborts fatally
(exit 1, before any item is processed) on a missing credential; the
`bat_util.py`-based pipeline warns and continues with classification
disabled — both classifier entry points then return the unknown outcome with
no external invocation and no rate-limiter interaction. -/
theorem C7_missing_key (oracle : String → Option PyJson)
    (jl : String → Option PyJson) (orc : String → String → Nat → Option String)
    (t e : String) (st : AIState) :
    batScraperStartup none = .fatalExit 1
    ∧ batUtilStartup none = .continueRun false
    ∧ (ai_extract_make_model false oracle t st).1 = (.jnull, .jnull)
    ∧ ((ai_extract_make_model false oracle t st).2).extCalls = st.extCalls
    ∧ ((ai_extract_make_model false oracle t st).2).throttleCalls = st.throttleCalls
    ∧ (ai_identify_transmission false jl orc t e st).1 = none
    ∧ ((ai_identify_transmission false jl orc t e st).2).extCalls = st.extCalls
    ∧ ((ai_identify_transmission false jl orc t e st).2).throttleCalls
        = st.throttleCalls :=
  ⟨rfl, rfl, rfl, rfl, rfl, rfl, rfl, rfl⟩

/-- C9: the title "2021 Land Rover Range Rover Evoque" splits
deterministically into make "Land Rover" and model "Range Rover Evoque" by
known-make matching, with zero classifier invocations, whatever the
classifier oracle would answer. -/
theorem C9_land_rover (ai : String → Option String × Option String) :
    split_make_model ai "2021 Land Rover Range Rover Evoque"
      = ((some "Land Rover", some "Range Rover Evoque"), 0) := by
  rfl

/-- C10: in `parse_json_listing` a title mileage of exactly 0 behaves like a
missing title mileage: selection falls through to the excerpt and then (when
the combined value is null and a url is present) to the detail page, so a
zero title reading can be replaced by a nonzero lower-priority value. -/
theorem C10_zero_title_mileage (excerptM detailM : Option Nat) (urlTruthy : Bool) :
    selectMileage (some 0) excerptM urlTruthy detailM
      = selectMileage none excerptM urlTruthy detailM
    ∧ selectMileage (some 0) none true (some 12000) = some 12000
    ∧ selectMileage (some 0) (some 9000) urlTruthy detailM = some 9000 :=
  ⟨rfl, rfl, rfl⟩

/-- Block 4 of the parser is block (d) of the claim. -/
theorem parseFall3_eq_stage4 (s : String) : parseFall3 s = stage4 s := rfl

/-- Falling through block 3 is the ordered fallback of stages (c) then (d). -/
theorem parseFall2_eq (s : String) :
    parseFall2 s = (stage3 s).orElse fun _ => stage4 s := by
  simp only [parseFall2, stage3, parseFall3_eq_stage4]
  split_ifs <;> simp [Option.orElse]

/-- Falling through block 2 is the ordered fallback of stages (b), (c), (d). -/
theorem parseFall1_eq (jl : String → Option PyJson) (s : String) :
    parseFall1 jl s = (stage2 jl s).orElse fun _ => (stage3 s).orElse fun _ => stage4 s := by
  simp only [parseFall1, stage2, ← parseFall2_eq]
  cases hf : pyFind lbrace s.data with
  | none => simp [Option.orElse]
  | some start =>
    cases hr : pyRFind rbrace s.data with
    | none => simp [Option.orElse]
    | some stop =>
      by_cases hlt : start < stop
      · simp only [if_pos hlt]
        cases hj : jl ⟨(s.data.drop start).take (stop + 1 - start)⟩ with
        | none => simp [Option.orElse]
        | some pj =>
          cases pj with
          | jdict fs =>
            cases hg : pyGet fs "transmission" with
            | jstr val =>
              simp only [hg, normLabel]
              split_ifs <;> simp [Option.orElse]
            | jdict f2 => simp [hg, Option.orElse]
            | jlist l2 => simp [hg, Option.orElse]
            | jnull => simp [hg, Option.orElse]
            | jother => simp [hg, Option.orElse]
          | jstr v => simp [Option.orElse]
          | jlist l => simp [Option.orElse]
          | jnull => simp [Option.orElse]
          | jother => simp [Option.orElse]
      · simp [if_neg hlt, Option.orElse]

/-- C6: on every response text the defensive parser equals the ordered
fallback of its four stages on the stripped text — strict JSON parse, first
`\x7b...\x7d` slice parse, bare single-token match, keyword sniff — where a
later stage is consulted exactly when every earlier stage returned nothing;
and the keyword stage answers iff exactly one of the two keywords occurs
(`none` when both or neither do). -/
theorem C6_parser_stage_order (jl : String → Option PyJson) (text : String) :
    _parse_transmission_from_model_response jl text
      = (if text = "" then none
         else
           let s := pyStripChar backquote (pyStrip text)
           (stage1 jl s).orElse fun _ =>
             (stage2 jl s).orElse fun _ =>
               (stage3 s).orElse fun _ => stage4 s)
    ∧ ∀ s : String,
        (stage4 s = some "automatic"
          ↔ wordSearch "automatic".data s.data = true
            ∧ wordSearch "manual".data s.data = false)
        ∧ (stage4 s = some "manual"
          ↔ wordSearch "manual".data s.data = true
            ∧ wordSearch "automatic".data s.data = false)
        ∧ (stage4 s = none
          ↔ wordSearch "automatic".data s.data = wordSearch "manual".data s.data) := by
  constructor
  · by_cases ht : text = ""
    · simp [_parse_transmission_from_model_response, ht]
    · rw [if_neg ht]
      unfold _parse_transmission_from_model_response
      rw [if_neg ht]
      simp only [stage1, ← parseFall1_eq]
      cases hjs : jl (pyStripChar backquote (pyStrip text)) with
      | none => simp [Option.orElse]
      | some pj =>
        cases pj with
        | jdict fs =>
          cases hg : pyGet fs "transmission" with
          | jstr val =>
            simp only [hg, normLabel]
            split_ifs <;> simp [Option.orElse]
          | jdict f2 => simp [hg, Option.orElse]
          | jlist l2 => simp [hg, Option.orElse]
          | jnull => simp [hg, Option.orElse]
          | jother => simp [hg, Option.orElse]
        | jstr v0 =>
          simp only [normLabel]
          split_ifs <;> simp [Option.orElse]
        | jlist l => simp [Option.orElse]
        | jnull => simp [Option.orElse]
        | jother => simp [Option.orElse]
  · intro s
    refine ⟨?_, ?_, ?_⟩ <;>
      cases ha : wordSearch "automatic".data s.data <;>
        cases hm : wordSearch "manual".data s.data <;>
          simp [stage4, ha, hm]

/-- Every invocation of the transmission-identification retry loop interacts
with the rate limiter and the external service at least once (there is no
cache in front of it). -/
theorem identifyAttempts_counters (jl : String → Option PyJson)
    (orc : String → String → Nat → Option String) (t e : String) :
    ∀ (a : Nat) (st : AIState),
      st.throttleCalls < ((identifyAttempts jl orc t e a st).2).throttleCalls
      ∧ st.extCalls < ((identifyAttempts jl orc t e a st).2).extCalls := by
  have key : ∀ (k a : Nat), 2 - a ≤ k → ∀ st : AIState,
      st.throttleCalls < ((identifyAttempts jl orc t e a st).2).throttleCalls
      ∧ st.extCalls < ((identifyAttempts jl orc t e a st).2).extCalls := by
    intro k
    induction k with
    | zero =>
      intro a ha st
      have h2 : ¬ a < 2 := by omega
      unfold identifyAttempts
      cases ho : orc t e a <;>
        simp only [ho, if_neg h2] <;> (try split_ifs) <;> (try dsimp only) <;> omega
    | succ k ih =>
      intro a ha st
      have hih := ih (a + 1) (by omega)
        { st with throttleCalls := st.throttleCalls + 1, extCalls := st.extCalls + 1 }
      dsimp only at hih
      by_cases h2 : a < 2
      · unfold identifyAttempts
        cases ho : orc t e a <;>
          simp only [ho, if_pos h2] <;> (try split_ifs) <;> (try dsimp only) <;> omega
      · unfold identifyAttempts
        cases ho : orc t e a <;>
          simp only [ho, if_neg h2] <;> (try split_ifs) <;> (try dsimp only) <;> omega
  intro a st
  exact key 2 a (by omega) st
theorem ai_extract_second_call (keyB : Bool) (oracle : String → Option PyJson)
    (title : String) (st : AIState) :
    (ai_extract_make_model keyB oracle title ((ai_extract_make_model keyB oracle title st).2)).1
      = (ai_extract_make_model keyB oracle title st).1
    ∧ ((ai_extract_make_model keyB oracle title ((ai_extract_make_model keyB oracle title st).2)).2).extCalls
      = ((ai_extract_make_model keyB oracle title st).2).extCalls
    ∧ ((ai_extract_make_model keyB oracle title ((ai_extract_make_model keyB oracle title st).2)).2).throttleCalls
      = ((ai_extract_make_model keyB oracle title st).2).throttleCalls := by
  cases keyB with
  | false => exact ⟨rfl, rfl, rfl⟩
  | true =>
    cases hc : cacheLookup st.cache title with
    | some v =>
      unfold ai_extract_make_model
      simp [hc]
    | none =>
      unfold ai_extract_make_model
      simp only [hc, Bool.not_true, Bool.false_eq_true, if_false, ite_false]
      cases ho : oracle title with
      | none => simp [ho, cacheLookup_cons]
      | some parsed =>
        cases parsed with
        | jstr v => simp [ho, cacheLookup_cons]
        | jdict fs => simp [ho, cacheLookup_cons]
        | jlist l =>
          cases l with
          | nil => simp [ho, cacheLookup_cons]
          | cons x xs => cases x <;> simp [ho, cacheLookup_cons]
        | jnull => simp [ho, cacheLookup_cons]
        | jother => simp [ho, cacheLookup_cons]

theorem identify_auto_run (st : AIState) :
    identifyAttempts (fun _ => none) (fun _ _ _ => some "automatic") "t" "e" 0 st
      = (some true, { st with throttleCalls := st.throttleCalls + 1,
                              extCalls := st.extCalls + 1 }) := by
  unfold identifyAttempts
  simp only [show _parse_transmission_from_model_response (fun _ : String => none) "automatic"
      = some "automatic" from rfl]
  simp

theorem C3_counterexample :
    (ai_identify_transmission true (fun _ => none) (fun _ _ _ => some "automatic")
        "t" "e" ⟨[], 0, 0, 0⟩).1 = some true
    ∧ ((ai_identify_transmission true (fun _ => none) (fun _ _ _ => some "automatic")
        "t" "e" ⟨[], 0, 0, 0⟩).2).extCalls = 1
    ∧ (ai_identify_transmission true (fun _ => none) (fun _ _ _ => some "automatic") "t" "e"
        ((ai_identify_transmission true (fun _ => none) (fun _ _ _ => some "automatic")
          "t" "e" ⟨[], 0, 0, 0⟩).2)).1 = some true
    ∧ ((ai_identify_transmission true (fun _ => none) (fun _ _ _ => some "automatic") "t" "e"
        ((ai_identify_transmission true (fun _ => none) (fun _ _ _ => some "automatic")
          "t" "e" ⟨[], 0, 0, 0⟩).2)).2).extCalls = 2
    ∧ ((ai_identify_transmission true (fun _ => none) (fun _ _ _ => some "automatic") "t" "e"
        ((ai_identify_transmission true (fun _ => none) (fun _ _ _ => some "automatic")
          "t" "e" ⟨[], 0, 0, 0⟩).2)).2).throttleCalls = 2 := by
  have hrw : ∀ st : AIState,
      ai_identify_transmission true (fun _ => none) (fun _ _ _ => some "automatic") "t" "e" st
        = identifyAttempts (fun _ => none) (fun _ _ _ => some "automatic") "t" "e" 0 st := by
    intro st; rfl
  rw [hrw, identify_auto_run, hrw, identify_auto_run]
  refine ⟨rfl, rfl, rfl, rfl, rfl⟩

theorem C3_cache_idempotence (keyB : Bool) (oracle : String → Option PyJson)
    (title : String) (st : AIState) :
    ((ai_extract_make_model keyB oracle title ((ai_extract_make_model keyB oracle title st).2)).1
        = (ai_extract_make_model keyB oracle title st).1
      ∧ ((ai_extract_make_model keyB oracle title ((ai_extract_make_model keyB oracle title st).2)).2).extCalls
        = ((ai_extract_make_model keyB oracle title st).2).extCalls
      ∧ ((ai_extract_make_model keyB oracle title ((ai_extract_make_model keyB oracle title st).2)).2).throttleCalls
        = ((ai_extract_make_model keyB oracle title st).2).throttleCalls)
    ∧ ∀ (jl : String → Option PyJson) (orc : String → String → Nat → Option String)
        (t e : String) (st2 : AIState),
        st2.throttleCalls < ((ai_identify_transmission true jl orc t e st2).2).throttleCalls
        ∧ st2.extCalls < ((ai_identify_transmission true jl orc t e st2).2).extCalls := by
  refine ⟨ai_extract_second_call keyB oracle title st, ?_⟩
  intro jl orc t e st2
  have hrw : ai_identify_transmission true jl orc t e st2
      = identifyAttempts jl orc t e 0 st2 := rfl
  rw [hrw]
  exact identifyAttempts_counters jl orc t e 0 st2

/-- When every attempt ends in a retryable outcome, the loop issues exactly
`maxRetries` attempts, returns no data, and sleeps its class delay after each
attempt but the last. -/
theorem fetchAttempts_const_retry (base : ℚ) (jitter : Nat → ℚ)
    (oracle : Nat → FetchOutcome) (δ : Nat → ℚ)
    (h : ∀ n, sleepDelay base jitter (oracle n) n = some (δ n)) :
    ∀ (k attempt : Nat),
      fetchAttempts base jitter oracle (attempt + k) attempt
        = (none, attempt + k, (List.range' attempt (k - 1)).map δ) := by
  intro k
  induction k with
  | zero =>
    intro attempt
    unfold fetchAttempts
    simp
  | succ k ih =>
    intro attempt
    have hd := h attempt
    have hlt : attempt < attempt + (k + 1) := by omega
    have hretry : ∀ d : ℚ, d = δ attempt →
        (if attempt = attempt + (k + 1) - 1 then (none, attempt + 1, ([] : List ℚ))
         else
           ((fetchAttempts base jitter oracle (attempt + (k + 1)) (attempt + 1)).1,
            (fetchAttempts base jitter oracle (attempt + (k + 1)) (attempt + 1)).2.1,
            d :: (fetchAttempts base jitter oracle (attempt + (k + 1)) (attempt + 1)).2.2))
          = (none, attempt + (k + 1), (List.range' attempt (k + 1 - 1)).map δ) := by
      intro d hdeq
      subst hdeq
      cases k with
      | zero => simp
      | succ k2 =>
        rw [if_neg (by omega)]
        have harg : attempt + (k2 + 1 + 1) = (attempt + 1) + (k2 + 1) := by omega
        rw [harg, ih (attempt + 1)]
        simp only [Nat.add_sub_cancel]
        rfl
    unfold fetchAttempts
    rw [if_pos hlt]
    cases ho : oracle attempt with
    | httpStatus code body =>
      rw [ho] at hd
      unfold sleepDelay at hd
      dsimp only at hd ⊢
      by_cases ht : transientStatus code = true
      · rw [if_pos ht] at hd ⊢
        exact hretry _ (Option.some.inj hd)
      · rw [if_neg ht] at hd ⊢
        by_cases h403 : code = 403
        · rw [if_pos h403] at hd ⊢
          exact hretry _ (Option.some.inj hd)
        · rw [if_neg h403] at hd ⊢
          by_cases hlt400 : code < 400
          · rw [if_pos hlt400] at hd
            exact absurd hd (by simp)
          · rw [if_neg hlt400] at hd ⊢
            exact hretry _ (Option.some.inj hd)
    | timeout =>
      rw [ho] at hd
      unfold sleepDelay at hd
      dsimp only at hd ⊢
      exact hretry _ (Option.some.inj hd)
    | clientError =>
      rw [ho] at hd
      unfold sleepDelay at hd
      dsimp only at hd ⊢
      exact hretry _ (Option.some.inj hd)
    | tooManyRedirects =>
      rw [ho] at hd
      unfold sleepDelay at hd
      exact absurd hd (by simp)

/-- C4: for a URL answering HTTP 503 on every attempt, the detail fetcher
issues exactly `DETAIL_MAX_RETRIES` attempts and then returns the no-data
result; exhaustion is a return value, not an exception (every failure class
of the loop is total in the embedding). -/
theorem C4_bounded_retry_503 (base : ℚ) (jitter : Nat → ℚ)
    (oracle : Nat → FetchOutcome) (maxRetries : Nat)
    (h503 : ∀ n, ∃ body, oracle n = .httpStatus 503 body) :
    (detailFetch base jitter oracle maxRetries).1 = none
    ∧ (detailFetch base jitter oracle maxRetries).2.1 = maxRetries := by
  have h : ∀ n, sleepDelay base jitter (oracle n) n
      = some (min (base ^ n) 10 + jitter n) := by
    intro n
    obtain ⟨body, hb⟩ := h503 n
    rw [hb]
    rfl
  have hrun := fetchAttempts_const_retry base jitter oracle _ h maxRetries 0
  simp only [Nat.zero_add] at hrun
  unfold detailFetch
  rw [hrun]
  exact ⟨rfl, rfl⟩

/-- Witness for C4 at the shipped defaults: `DETAIL_MAX_RETRIES = 3`,
`DETAIL_BACKOFF_BASE = 9/5`. -/
theorem C4_bounded_retry_503_witness :
    (detailFetch (9/5) (fun _ => 1/4) (fun _ => .httpStatus 503 "") 3).1 = none
    ∧ (detailFetch (9/5) (fun _ => 1/4) (fun _ => .httpStatus 503 "") 3).2.1 = 3 :=
  C4_bounded_retry_503 (9/5) (fun _ => 1/4) (fun _ => .httpStatus 503 "") 3
    (fun _ => ⟨"", rfl⟩)

/-- C8 (amended): each failed attempt other than the last is followed by a
class-specific delay — `min(base**attempt, 10) + jitter` for HTTP
429/500/502/503/504, `2 + attempt` (linear, no jitter, no cap of the claimed
form) for HTTP 403, and `min(base**attempt, 8)` (no jitter) for network
timeouts and generic transport errors. -/
theorem C8_backoff_by_class (base : ℚ) (jitter : Nat → ℚ) (mr : Nat) :
    (detailFetch base jitter (fun _ => .httpStatus 503 "") mr).2.2
      = (List.range' 0 (mr - 1)).map (fun a => min (base ^ a) 10 + jitter a)
    ∧ (detailFetch base jitter (fun _ => .httpStatus 403 "") mr).2.2
      = (List.range' 0 (mr - 1)).map (fun a : Nat => 2 + (a : ℚ))
    ∧ (detailFetch base jitter (fun _ => .timeout) mr).2.2
      = (List.range' 0 (mr - 1)).map (fun a => min (base ^ a) 8)
    ∧ (detailFetch base jitter (fun _ => .clientError) mr).2.2
      = (List.range' 0 (mr - 1)).map (fun a => min (base ^ a) 8) := by
  refine ⟨?_, ?_, ?_, ?_⟩
  · have hrun := fetchAttempts_const_retry base jitter (fun _ => .httpStatus 503 "")
      (fun a => min (base ^ a) 10 + jitter a) (fun _ => rfl) mr 0
    simp only [Nat.zero_add] at hrun
    unfold detailFetch
    rw [hrun]
  · have hrun := fetchAttempts_const_retry base jitter (fun _ => .httpStatus 403 "")
      (fun a => 2 + (a : ℚ)) (fun _ => rfl) mr 0
    simp only [Nat.zero_add] at hrun
    unfold detailFetch
    rw [hrun]
  · have hrun := fetchAttempts_const_retry base jitter (fun _ => .timeout)
      (fun a => min (base ^ a) 8) (fun _ => rfl) mr 0
    simp only [Nat.zero_add] at hrun
    unfold detailFetch
    rw [hrun]
  · have hrun := fetchAttempts_const_retry base jitter (fun _ => .clientError)
      (fun a => min (base ^ a) 8) (fun _ => rfl) mr 0
    simp only [Nat.zero_add] at hrun
    unfold detailFetch
    rw [hrun]

/-- C8 counterexample: under permanent HTTP 403 (base 9/5, 3 retries) the
slept delays are 2 and 3 seconds, but the claimed form
`min(backoff_base**attempt, cap) + jitter` with the code's jitter range
`[0, 1/2]` and cap 10 puts the first delay in `[1, 3/2]`, which excludes 2:
the 403 class does not follow the claimed formula. -/
theorem C8_counterexample :
    (detailFetch (9/5) (fun _ => 0) (fun _ => .httpStatus 403 "") 3).2.2 = [2, 3]
    ∧ (2 : ℚ) ∉ Set.Icc (min ((9/5 : ℚ) ^ (0 : Nat)) 10 + 0)
        (min ((9/5 : ℚ) ^ (0 : Nat)) 10 + 1/2) := by
  constructor
  · have hrun := fetchAttempts_const_retry (9/5) (fun _ => 0)
      (fun _ => .httpStatus 403 "") (fun a => 2 + (a : ℚ)) (fun _ => rfl) 3 0
    simp only [Nat.zero_add] at hrun
    unfold detailFetch
    rw [hrun]
    norm_num [List.range']
  · simp only [Set.mem_Icc, not_and, not_le]
    intro _
    norm_num

/-- Closed form of the fold of `parse_listings`, for any accumulator. -/
theorem parse_listings_go {α β ε : Type} (f : α → Except ε (Option β)) :
    ∀ (l : List α) (acc : List β) (n : Nat),
      (l.map f).foldl
        (fun acc r =>
          match r with
          | .error _ => (acc.1, acc.2 + 1)
          | .ok none => acc
          | .ok (some b) => (acc.1 ++ [b], acc.2))
        (acc, n)
      = (acc ++ l.filterMap (fun a => match f a with | .ok (some b) => some b | _ => none),
         n + l.countP (fun a => match f a with | .error _ => true | _ => false)) := by
  intro l
  induction l with
  | nil => intro acc n; simp
  | cons a t ih =>
    intro acc n
    simp only [List.map_cons, List.foldl_cons, List.filterMap_cons, List.countP_cons]
    cases hf : f a with
    | error e =>
      rw [ih]
      simp [hf]
      omega
    | ok ob =>
      cases ob with
      | none =>
        rw [ih]
        simp [hf]
      | some b =>
        rw [ih]
        simp [hf]

/-- Chunking splits the row list without loss or reordering. -/
theorem pyChunks_flatten {α : Type} (n : Nat) (hn : n ≠ 0) (l : List α) :
    (pyChunks n l).flatten = l := by
  have H : ∀ (k : Nat) (l2 : List α), l2.length = k → (pyChunks n l2).flatten = l2 := by
    intro k
    induction k using Nat.strong_induction_on with
    | _ k ih =>
      intro l2 hk
      cases l2 with
      | nil => simp [pyChunks]
      | cons x xs =>
        unfold pyChunks
        rw [dif_neg hn]
        simp only [List.flatten_cons]
        have hlen : ((x :: xs).drop n).length < k := by
          subst hk
          simp only [List.length_drop, List.length_cons]
          omega
        rw [ih _ hlen _ rfl]
        exact List.take_append_drop n (x :: xs)
  exact H l.length l rfl

/-- Closed form of one chunk's gather-and-count fold. -/
theorem backfill_inner_go {ρ ε : Type} (g : ρ → Except ε Nat) :
    ∀ (batch : List ρ) (acc : Nat × Nat),
      batch.foldl
        (fun a r =>
          match g r with
          | .error _ => (a.1, a.2 + 1)
          | .ok m => (a.1 + m, a.2))
        acc
      = (acc.1 + (batch.map (fun r => match g r with | .ok m => m | .error _ => 0)).sum,
         acc.2 + batch.countP (fun r => match g r with | .error _ => true | _ => false)) := by
  intro batch
  induction batch with
  | nil => intro acc; simp
  | cons r t ih =>
    intro acc
    simp only [List.foldl_cons, List.map_cons, List.sum_cons, List.countP_cons]
    cases hg : g r with
    | error e =>
      rw [ih]
      simp [hg]
      omega
    | ok m =>
      rw [ih]
      simp [hg]
      omega

/-- Closed form of the chunked fold, over the concatenation of the chunks. -/
theorem backfill_chunks_go {ρ ε : Type} (g : ρ → Except ε Nat) :
    ∀ (L : List (List ρ)) (acc : Nat × Nat),
      L.foldl
        (fun acc batch =>
          batch.foldl
            (fun a r =>
              match g r with
              | .error _ => (a.1, a.2 + 1)
              | .ok m => (a.1 + m, a.2))
            acc)
        acc
      = (acc.1 + (L.flatten.map (fun r => match g r with | .ok m => m | .error _ => 0)).sum,
         acc.2 + L.flatten.countP (fun r => match g r with | .error _ => true | _ => false)) := by
  intro L
  induction L with
  | nil => intro acc; simp
  | cons batch rest ih =>
    intro acc
    simp only [List.foldl_cons, List.flatten_cons, List.map_append, List.sum_append,
      List.countP_append]
    rw [backfill_inner_go g batch acc, ih]
    dsimp only
    rw [Prod.mk.injEq]
    constructor <;> omega

/-- C5: per-item failures are isolated at the task boundary.  In
`parse_listings`, the output records are exactly the successfully parsed
records of the non-failing items, in order — an item whose task raised
contributes one error log line and removes nothing else — and in
`backfill_manual` the updated count is the sum of the per-row outcomes of the
non-failing rows and each raising row contributes one exception log line,
independently of the chunking; both coordinators are total functions, so no
item's exception propagates or aborts the batch. -/
theorem C5_batch_isolation {α β ρ ε ε2 : Type} (f : α → Except ε (Option β))
    (g : ρ → Except ε2 Nat) (listings : List α) (rows : List ρ) (concurrency : Nat) :
    parse_listings f listings
      = (listings.filterMap (fun a => match f a with | .ok (some b) => some b | _ => none),
         listings.countP (fun a => match f a with | .error _ => true | _ => false))
    ∧ backfill_manual g rows concurrency
      = ((rows.map (fun r => match g r with | .ok m => m | .error _ => 0)).sum,
         rows.countP (fun r => match g r with | .error _ => true | _ => false)) := by
  constructor
  · unfold parse_listings
    rw [parse_listings_go]
    simp
  · unfold backfill_manual
    rw [backfill_chunks_go]
    have hmax : (100 : Nat) ≤ max 100 (concurrency * 2) := le_max_left _ _
    rw [pyChunks_flatten (max 100 (concurrency * 2)) (by omega) rows]
    simp

/-- One serialized throttle execution starts at least `iv` after the stored
`_gemini_last_call`, whatever the arrival time. -/
theorem throttleStart_gap (iv a last : ℚ) : last + iv ≤ throttleStart iv a last := by
  unfold throttleStart
  dsimp only
  split_ifs with h
  · linarith
  · linarith

/-- The first call-start of a serialized run is at least `iv` after the
stored `_gemini_last_call`. -/
theorem seqRun_head_ge (iv last : ℚ) (arrivals : List ℚ) :
    ∀ c ∈ (seqRun iv last arrivals).head?, last + iv ≤ c := by
  cases arrivals with
  | nil => simp [seqRun]
  | cons a rest =>
    simp only [seqRun, List.head?_cons, Option.mem_def, Option.some.injEq]
    intro c hc
    subst hc
    exact throttleStart_gap iv a last

/-- C1 (amended): when callers of `_throttle_gemini_call` are serialized —
each runs the whole read-sleep-update body before the next enters — every
pair of consecutive admitted call-starts is at least
`60 / max(1, GEMINI_RATE_LIMIT_RPM)` seconds apart, for any arrival times and
any prior `_gemini_last_call`.  (With interleaved callers the bound fails;
see the counterexample.) -/
theorem C1_serialized_rate_bound (rpm : Nat) (last : ℚ) (arrivals : List ℚ) :
    SpacedBy (gemini_interval rpm) (seqRun (gemini_interval rpm) last arrivals) := by
  have H : ∀ (iv : ℚ) (arr : List ℚ) (l : ℚ), SpacedBy iv (seqRun iv l arr) := by
    intro iv arr
    induction arr with
    | nil => intro l; simp [seqRun, SpacedBy]
    | cons a rest ih =>
      intro l
      unfold seqRun SpacedBy
      rw [List.chain'_cons']
      exact ⟨seqRun_head_ge iv _ rest, ih _⟩
  exact H _ arrivals last

/-- C1 counterexample: under the cooperative small-step semantics of
`_throttle_gemini_call` with `_gemini_interval = 1` (RPM 60), two concurrent
callers that both read the stale `_gemini_last_call = 0` at clock 1/2 both
sleep until 1 and are both admitted at time 1: the log `[1, 1]` has two
consecutive call-starts 0 < 1 apart, so the global spacing guarantee does not
hold for concurrent callers — the check and update do not behave as one
atomic operation across the `await`. -/
theorem C1_counterexample :
    gemini_interval 60 = 1
    ∧ GReach 1 gInit gFinal
    ∧ gFinal.log = [1, 1]
    ∧ ¬ SpacedBy 1 gFinal.log := by
  refine ⟨by norm_num [gemini_interval], ?_, rfl, ?_⟩
  · have s1 : GStep 1 gInit gMid1 :=
      GStep.beginSleep _ _ 0 (by decide) (by norm_num [gInit])
        (by simp only [gInit, gMid1]; norm_num [List.set])
    have s2 : GStep 1 gMid1 gMid2 :=
      GStep.beginSleep _ _ 1 (by decide) (by norm_num [gMid1])
        (by simp only [gMid1, gMid2]; norm_num [List.set])
    have s3 : GStep 1 gMid2 gMid3 :=
      GStep.advance _ _ (1/2) (by norm_num)
        (by simp only [gMid2, gMid3]; norm_num)
    have s4 : GStep 1 gMid3 gMid4 :=
      GStep.wakeAdmit _ _ 0 1 (by decide) (by norm_num [gMid3])
        (by simp only [gMid3, gMid4]; norm_num [List.set])
    have s5 : GStep 1 gMid4 gFinal :=
      GStep.wakeAdmit _ _ 1 1 (by decide) (by norm_num [gMid4])
        (by simp only [gMid4, gFinal]; norm_num [List.set])
    exact Relation.ReflTransGen.head s1 (Relation.ReflTransGen.head s2
      (Relation.ReflTransGen.head s3 (Relation.ReflTransGen.head s4
        (Relation.ReflTransGen.head s5 Relation.ReflTransGen.refl))))
  · simp only [SpacedBy, gFinal, List.chain'_cons]
    intro hbad
    have h2 := hbad.1
    norm_num at h2

end CarTracker
